import Mathlib

/-!
Verification of `codeornot` (src/codeornot/language.py): a heuristic
human-language classifier.  The module offers `human_language` (classify one
string or a list of strings, joined with spaces, into an ISO-639 two-letter
code or "unknown"), `majority_language` (classify each string of a list and
vote), and `iso639_to_name` (static table lookup).

The external collaborators (`ftfy.fix_text` text repair and `pycld2.detect`
detection) are modelled as an opaque environment `DetectorEnv`: `fix_text` may
succeed or raise, and `detect` may return a `(reliable, _, details)` result,
raise the library's own `pycld2.error`, or raise some other exception.  Python
exceptions that escape a function are modelled by the `raised` constructor of
the result type; Python `None` by the `none` constructor.
-/

namespace CodeOrNot

/-- Membership in Python's `string.printable`: the ASCII range 0x20–0x7E
(digits, letters, punctuation, space) together with the whitespace characters
`\t`, `\n`, `\r`, `\x0b`, `\x0c`. -/
def pyPrintable (c : Char) : Bool :=
  (0x20 ≤ c.toNat && c.toNat ≤ 0x7e) || c == '\t' || c == '\n' || c == '\r'
    || c.toNat == 0x0b || c.toNat == 0x0c

/-- `''.join(x for x in text if x in string.printable)` (language.py line 81). -/
def stripUnprintable (s : String) : String :=
  String.mk (s.toList.filter pyPrintable)

/-- `_min_text_length = 30` (language.py line 32). -/
def _min_text_length : Nat := 30

/-- The `text` argument of `human_language`: Python `None`, a string, or a
list of strings. -/
inductive TextInput
  | none
  | str (s : String)
  | list (l : List String)
deriving DecidableEq, Repr

/-- Python truthiness of the argument, as tested by `if not text:` on line 63:
`None`, the empty string and the empty list are falsy. -/
def TextInput.truthy : TextInput → Bool
  | .none => false
  | .str s => !(s == "")
  | .list l => !(l.isEmpty)

/-- Python `' '.join(l)`: the elements of `l` concatenated in order with a
single space between consecutive elements. -/
def spaceJoin : List String → String
  | [] => ""
  | [s] => s
  | s :: s' :: rest => s ++ " " ++ spaceJoin (s' :: rest)

/-- The string analysed after the list case is joined: `' '.join(text)` for a
list (line 66), the string itself otherwise.  (`TextInput.none` never reaches
this point; its image is irrelevant.) -/
def TextInput.joined : TextInput → String
  | .none => ""
  | .str s => s
  | .list l => spaceJoin l

/-- Outcome of one call to `pycld2.detect(text, bestEffort=True)`: a normal
return `(reliable, _, details)` where `details` is a list of tuples whose
second component is the language code; or raising `pycld2.error`; or raising
some other exception. -/
inductive Cld2Outcome
  | ok (reliable : Bool) (details : List (String × String))
  | cld2Error
  | otherError
deriving DecidableEq, Repr

/-- The opaque external collaborators of language.py: the text-repair pass
`ftfy.fix_text` (which may raise, modelled by `Except.error`) and the detector
`pycld2.detect`.  Both are functions of the input text only, i.e. the
collaborators are deterministic. -/
structure DetectorEnv where
  fixText : String → Except Unit String
  detect : String → Cld2Outcome

/-- Outcome of the inner helper `guessed_language(text)` (lines 59-61):
`details[0][1] if details else None` on a normal detector return, otherwise
the detector's exception propagates. -/
inductive GuessOutcome
  | ok (lang : Option String)
  | cld2Error
  | otherError
deriving DecidableEq, Repr

/-- `guessed_language(text)` (language.py lines 59-61). -/
def guessed_language (env : DetectorEnv) (text : String) : GuessOutcome :=
  match env.detect text with
  | .ok _ details => .ok (details.head?.map Prod.snd)
  | .cld2Error => .cld2Error
  | .otherError => .otherError

/-- Result of `human_language`: Python `None`, a returned string, or a raised
exception escaping to the caller. -/
inductive LangResult
  | none
  | lang (s : String)
  | raised
deriving DecidableEq, Repr

/-- `return lang if lang else "unknown"` (line 83): Python `None` and the
empty string are falsy. -/
def langToResult : Option String → String
  | Option.none => "unknown"
  | some l => if l = "" then "unknown" else l

/-- `human_language(text, enforce_length)` (language.py lines 44-85).  The
outer `try`/`except Exception` (lines 73, 84-85) turns any exception raised
during repair or detection into the return value `'unknown'`; the inner
`except cld2.error` (line 78) catches only the detector's own error from the
first attempt and retries once on the printable-ASCII-stripped text; an
exception from that retry is caught by the outer handler. -/
def human_language (env : DetectorEnv) (text : TextInput)
    (enforce_length : Bool) : LangResult :=
  if !text.truthy then .none
  else
    let t := text.joined
    if t.length < _min_text_length then
      if enforce_length then .raised
      else .lang "unknown"
    else
      match env.fixText t with
      | .error _ => .lang "unknown"
      | .ok t' =>
        match guessed_language env t' with
        | .ok lang => .lang (langToResult lang)
        | .cld2Error =>
          match guessed_language env (stripUnprintable t') with
          | .ok lang => .lang (langToResult lang)
          | .cld2Error => .lang "unknown"
          | .otherError => .lang "unknown"
        | .otherError => .lang "unknown"

/-- `if not isinstance(string_list, list): string_list = [string_list]`
(lines 99-100): wrap a non-list argument into a one-element list. -/
def toStringList : TextInput → List TextInput
  | .list l => l.map TextInput.str
  | t => [t]

/-- The per-element classification results
`[human_language(string, enforce_length) for string in string_list]`
(line 101). -/
def classifyAll (env : DetectorEnv) (input : TextInput) (enforce_length : Bool) :
    List LangResult :=
  (toStringList input).map (fun t => human_language env t enforce_length)

/-- A non-raising per-element result as the Python value it denotes: `None`
or a string. -/
def asValue : LangResult → Option String
  | .lang s => some s
  | _ => Option.none

/-- `[lang for lang in langs if lang not in ['un', 'unknown']]` (line 103).
Note Python `None` is not in that list, so it survives the filter. -/
def discardUnknown (l : List (Option String)) : List (Option String) :=
  l.filter (fun v => decide (v ≠ some "un" ∧ v ≠ some "unknown"))

/-- Python `max(iterable, key=key)` folded left over a non-empty iterable:
the first element attaining the maximal key wins, a later element replaces
the current best only when its key is strictly greater. -/
def pyMaxFold (key : α → Nat) : α → List α → α
  | best, [] => best
  | best, y :: ys => pyMaxFold key (if key y > key best then y else best) ys

/-- Python `max(iterable, key=key)`; `Option.none` models the `ValueError`
raised on an empty iterable. -/
def pyMax (key : α → Nat) : List α → Option α
  | [] => Option.none
  | x :: xs => some (pyMaxFold key x xs)

/-- The value returned by `majority_language` when the vote picks `v`. -/
def valueToResult : Option String → LangResult
  | Option.none => .none
  | some s => .lang s

/-- `majority_language(string_list, enforce_length)` (language.py lines
88-107).  `setOrder` models the iteration order of the Python `set(langs)`
on line 105, which is unspecified; theorems assume only `IsSetOrder`: it
enumerates each distinct element exactly once.  If any per-element call
raises (only possible with `enforce_length=True`), the exception propagates
(`.raised`). -/
def majority_language (env : DetectorEnv)
    (setOrder : List (Option String) → List (Option String))
    (string_list : TextInput) (enforce_length : Bool) : LangResult :=
  let results := classifyAll env string_list enforce_length
  if LangResult.raised ∈ results then .raised
  else
    let langs := discardUnknown (results.map asValue)
    if langs = [] then .lang "unknown"
    else
      match pyMax (fun v => langs.count v) (setOrder langs) with
      | some v => valueToResult v
      | Option.none => .raised

/-- A valid model of Python set materialization: the output enumerates
exactly the distinct elements of the input, each once. -/
def IsSetOrder (f : List (Option String) → List (Option String)) : Prop :=
  ∀ l, (f l).Nodup ∧ ∀ x, x ∈ f l ↔ x ∈ l

/-- One concrete valid set order, used to instantiate witnesses. -/
def dedupOrder : List (Option String) → List (Option String) :=
  fun l => l.dedup

/-- Result of `iso639_to_name`: the English name, or the raised
`ValueError('Unknown language code ...')`. -/
inductive NameResult
  | name (s : String)
  | unknownCodeError
deriving DecidableEq, Repr

/-- `_language_codes` (language.py lines 121-306), as an association list in
source order. -/
def _language_codes : List (String × String) := [
  ("aa", "Afar"), ("ab", "Abkhazian"), ("ae", "Avestan"), ("af", "Afrikaans"), ("ak", "Akan"),
  ("am", "Amharic"), ("an", "Aragonese"), ("ar", "Arabic"), ("as", "Assamese"), ("av", "Avaric"),
  ("ay", "Aymara"), ("az", "Azerbaijani"), ("ba", "Bashkir"), ("be", "Belarusian"), ("bg", "Bulgarian"),
  ("bh", "Bihari"), ("bi", "Bislama"), ("bm", "Bambara"), ("bn", "Bengali"), ("bo", "Tibetan"),
  ("br", "Breton"), ("bs", "Bosnian"), ("ca", "Catalan"), ("ce", "Chechen"), ("ch", "Chamorro"),
  ("co", "Corsican"), ("cr", "Cree"), ("cs", "Czech"), ("cu", "Church Slavic"), ("cv", "Chuvash"),
  ("cy", "Welsh"), ("da", "Danish"), ("de", "German"), ("dv", "Divehi"), ("dz", "Dzongkha"),
  ("ee", "Ewe"), ("el", "Greek"), ("en", "English"), ("eo", "Esperanto"), ("es", "Spanish"),
  ("et", "Estonian"), ("eu", "Basque"), ("fa", "Farsi"), ("ff", "Fulah"), ("fi", "Finnish"),
  ("fj", "Fijian"), ("fo", "Faroese"), ("fr", "French"), ("fy", "Western Frisian"), ("ga", "Irish"),
  ("gd", "Gaelic"), ("gl", "Galician"), ("gn", "Guarani"), ("gu", "Gujarati"), ("gv", "Manx"),
  ("ha", "Hausa"), ("he", "Hebrew"), ("hi", "Hindi"), ("ho", "Hiri Motu"), ("hr", "Croatian"),
  ("ht", "Haitian"), ("hu", "Hungarian"), ("hy", "Armenian"), ("hz", "Herero"), ("ia", "Interlingua"),
  ("id", "Indonesian"), ("ie", "Interlingue"), ("ig", "Igbo"), ("ii", "Sichuan Yi"), ("ik", "Inupiaq"),
  ("io", "Ido"), ("is", "Icelandic"), ("it", "Italian"), ("iu", "Inuktitut"), ("ja", "Japanese"),
  ("jv", "Javanese"), ("ka", "Georgian"), ("kg", "Kongo"), ("ki", "Kikuyu"), ("kj", "Kuanyama"),
  ("kk", "Kazakh"), ("kl", "Kalaallisut"), ("km", "Central Khmer"), ("kn", "Kannada"), ("ko", "Korean"),
  ("kr", "Kanuri"), ("ks", "Kashmiri"), ("ku", "Kurdish"), ("kv", "Komi"), ("kw", "Cornish"),
  ("ky", "Kirghiz"), ("la", "Latin"), ("lb", "Luxembourgish"), ("lg", "Ganda"), ("li", "Limburgan"),
  ("ln", "Lingala"), ("lo", "Lao"), ("lt", "Lithuanian"), ("lu", "Luba-Katanga"), ("lv", "Latvian"),
  ("mg", "Malagasy"), ("mh", "Marshallese"), ("mi", "Maori"), ("mk", "Macedonian"), ("ml", "Malayalam"),
  ("mn", "Mongolian"), ("mr", "Marathi"), ("ms", "Malay"), ("mt", "Maltese"), ("my", "Burmese"),
  ("na", "Nauruan"), ("nb", "Norwegian Bokmål"), ("nd", "Northern Ndebele"), ("ne", "Nepali"), ("ng", "Ndonga"),
  ("nl", "Dutch"), ("nn", "Norwegian Nynorsk"), ("no", "Norwegian"), ("nr", "Southern Ndebele"), ("nv", "Navajo"),
  ("ny", "Chichewa"), ("oc", "Occitan"), ("oj", "Ojibwa"), ("om", "Oromo"), ("or", "Oriya"),
  ("os", "Ossetian"), ("pa", "Panjabi"), ("pi", "Pali"), ("pl", "Polish"), ("ps", "Pushto"),
  ("pt", "Portuguese"), ("qu", "Quechua"), ("rm", "Romansh"), ("rn", "Rundi"), ("ro", "Romanian"),
  ("ru", "Russian"), ("rw", "Kinyarwanda"), ("sa", "Sanskrit"), ("sc", "Sardinian"), ("sd", "Sindhi"),
  ("se", "Northern Sami"), ("sg", "Sango"), ("si", "Sinhalese"), ("sk", "Slovak"), ("sl", "Slovenian"),
  ("sm", "Samoan"), ("sn", "Shona"), ("so", "Somali"), ("sq", "Albanian"), ("sr", "Serbian"),
  ("ss", "Swati"), ("st", "Southern Sotho"), ("su", "Sundanese"), ("sv", "Swedish"), ("sw", "Swahili"),
  ("ta", "Tamil"), ("te", "Telugu"), ("tg", "Tajik"), ("th", "Thai"), ("ti", "Tigrinya"),
  ("tk", "Turkmen"), ("tl", "Tagalog"), ("tn", "Tswana"), ("to", "Tongan"), ("tr", "Turkish"),
  ("ts", "Tsonga"), ("tt", "Tatar"), ("tw", "Twi"), ("ty", "Tahitian"), ("ug", "Uighur"),
  ("uk", "Ukrainian"), ("ur", "Urdu"), ("uz", "Uzbek"), ("ve", "Venda"), ("vi", "Vietnamese"),
  ("vo", "Volapük"), ("wa", "Walloon"), ("wo", "Wolof"), ("xh", "Xhosa"), ("yi", "Yiddish"),
  ("yo", "Yoruba"), ("za", "Zhuang"), ("zh", "Chinese"), ("zu", "Zulu") ]

/-- `iso639_to_name(code)` (language.py lines 308-312): exact-key dictionary
lookup, raising on absence. -/
def iso639_to_name (code : String) : NameResult :=
  match _language_codes.lookup code with
  | some n => .name n
  | Option.none => .unknownCodeError

/-! ## Concrete environments and inputs used to instantiate theorems -/

/-- A detector environment whose repair pass is the identity and whose
detector always returns an empty candidate list. -/
def envTrivial : DetectorEnv := ⟨fun s => .ok s, fun _ => .ok true []⟩

/-- A detector environment whose detector always returns English as the top
candidate. -/
def envTop : DetectorEnv := ⟨fun s => .ok s, fun _ => .ok true [("English", "en")]⟩

def tEn1 : String := "This is clearly an English sentence number one."

def tEn2 : String := "This is clearly an English sentence number two."

def tFr : String := "Ceci est clairement une longue phrase francaise."

/-- A detector environment classifying `tFr` as French and everything else as
English. -/
def envVote : DetectorEnv :=
  ⟨fun s => .ok s, fun s => .ok true [("lang", if s = tFr then "fr" else "en")]⟩

/-- A 41-character text whose first character is outside `string.printable`. -/
def cexText : String := "é0123456789012345678901234567890123456789"

/-- A detector environment that raises `pycld2.error` on every input except
the printable-ASCII-stripped form of `cexText`, exercising the retry path. -/
def envRetry : DetectorEnv :=
  ⟨fun s => .ok s,
   fun s => if s = stripUnprintable cexText then .ok true [("English", "en")]
            else .cld2Error⟩

/-! ## Helper lemmas -/

/-- With `enforce_length=False`, no branch of `human_language` raises. -/
theorem human_language_false_ne_raised (env : DetectorEnv) (text : TextInput) :
    human_language env text false ≠ LangResult.raised := by
  unfold human_language
  all_goals repeat' first | split | simp_all

/-- `List.dedup` is a valid model of Python set materialization. -/
theorem isSetOrder_dedup : IsSetOrder dedupOrder := by
  intro l
  exact ⟨l.nodup_dedup, fun x => List.mem_dedup⟩

/-- A valid set order can only enumerate a one-element list as itself. -/
theorem IsSetOrder.singleton {f} (hf : IsSetOrder f) (x : Option String) :
    f [x] = [x] := by
  obtain ⟨hnd, hmem⟩ := hf [x]
  have hx : x ∈ f [x] := (hmem x).mpr (by simp)
  have hall : ∀ y ∈ f [x], y = x := fun y hy => by simpa using (hmem y).mp hy
  cases hfx : f [x] with
  | nil => rw [hfx] at hx; cases hx
  | cons a t =>
    rw [hfx] at hall hnd
    have ha : a = x := hall a (by simp)
    cases t with
    | nil => rw [ha]
    | cons b t' =>
      have hab : a = b := ha.trans (hall b (by simp)).symm
      rw [List.nodup_cons] at hnd
      exact absurd (by rw [hab]; exact List.mem_cons_self b t') hnd.1

/-- Joining a list of empty strings with single spaces yields one character
per gap: length `n - 1` for `n` elements. -/
theorem spaceJoin_all_empty_length :
    ∀ l : List String, (∀ s ∈ l, s = "") → (spaceJoin l).length = l.length - 1 := by
  intro l
  induction l with
  | nil => intro _; rfl
  | cons s rest ih =>
    intro h
    match rest with
    | [] => simp [spaceJoin, h s (by simp)]
    | s' :: t =>
      have hrest : ∀ x ∈ s' :: t, x = "" := fun x hx => h x (List.mem_cons_of_mem _ hx)
      have hs : s = "" := h s (by simp)
      simp only [spaceJoin, String.length_append, ih hrest, hs]
      simp [String.length]
      omega

/-- The fold behind Python `max` returns the element whose key strictly
dominates every other candidate (accumulator included). -/
theorem pyMaxFold_eq (key : α → Nat) :
    ∀ (l : List α) (best x : α), (x = best ∨ x ∈ l) →
      (∀ y, (y = best ∨ y ∈ l) → y ≠ x → key y < key x) →
      pyMaxFold key best l = x := by
  intro l
  induction l with
  | nil =>
    intro best x hx h
    rcases hx with rfl | h'
    · rfl
    · cases h'
  | cons y ys ih =>
    intro best x hx h
    have hsub : ∀ z, (z = (if key y > key best then y else best) ∨ z ∈ ys) →
        (z = best ∨ z ∈ y :: ys) := by
      intro z hz
      rcases hz with rfl | hz
      · split
        · exact Or.inr (List.mem_cons_self y ys)
        · exact Or.inl rfl
      · exact Or.inr (List.mem_cons_of_mem _ hz)
    show pyMaxFold key (if key y > key best then y else best) ys = x
    apply ih
    · by_cases hxy : x = y
      · subst hxy
        by_cases hxb : x = best
        · left; subst hxb; split <;> rfl
        · have hlt : key best < key x := h best (Or.inl rfl) (fun hbx => hxb hbx.symm)
          left
          rw [if_pos hlt]
      · rcases hx with rfl | hmem
        · have hlt : key y < key x := h y (Or.inr (List.mem_cons_self y ys))
            (fun h' => hxy h'.symm)
          left
          rw [if_neg (by omega)]
        · right
          rcases List.mem_cons.mp hmem with h' | h'
          · exact absurd h' hxy
          · exact h'
    · exact fun z hz hne => h z (hsub z hz) hne

/-- Python `max(l, key=key)` returns the unique element whose key strictly
dominates all others. -/
theorem pyMax_eq_of_strict (key : α → Nat) (l : List α) (x : α)
    (hx : x ∈ l) (h : ∀ y ∈ l, y ≠ x → key y < key x) :
    pyMax key l = some x := by
  cases l with
  | nil => cases hx
  | cons a t =>
    show some (pyMaxFold key a t) = some x
    congr 1
    apply pyMaxFold_eq
    · rcases List.mem_cons.mp hx with h' | h'
      · exact Or.inl h'
      · exact Or.inr h'
    · intro y hy hne
      apply h y _ hne
      rcases hy with rfl | hy
      · exact List.mem_cons_self _ _
      · exact List.mem_cons_of_mem _ hy

/-- Association-list lookup finds the value paired with a key when the keys
are distinct. -/
theorem lookup_eq_some_of_mem :
    ∀ (l : List (String × String)) (c n : String),
      (l.map Prod.fst).Nodup → (c, n) ∈ l → l.lookup c = some n := by
  intro l
  induction l with
  | nil => intro c n _ hmem; cases hmem
  | cons p rest ih =>
    intro c n hnd hmem
    obtain ⟨k, b⟩ := p
    rw [List.map_cons, List.nodup_cons] at hnd
    rcases List.mem_cons.mp hmem with heq | hmem'
    · obtain ⟨rfl, rfl⟩ := Prod.mk.injEq .. ▸ heq
      simp [List.lookup]
    · have hck : ¬(c == k) = true := by
        intro hbeq
        have hc : c = k := by simpa using hbeq
        subst hc
        exact hnd.1 (List.mem_map.mpr ⟨(c, n), hmem', rfl⟩)
      simp only [List.lookup, hck]
      exact ih c n hnd.2 hmem'

/-- Association-list lookup fails exactly on absent keys. -/
theorem lookup_eq_none_of_not_mem :
    ∀ (l : List (String × String)) (c : String),
      c ∉ l.map Prod.fst → l.lookup c = Option.none := by
  intro l
  induction l with
  | nil => intro c _; rfl
  | cons p rest ih =>
    intro c hc
    obtain ⟨k, b⟩ := p
    rw [List.map_cons] at hc
    have hck : ¬(c == k) = true := by
      intro hbeq
      exact hc (by simp [show c = k by simpa using hbeq])
    simp only [List.lookup, hck]
    exact ih c (fun h => hc (List.mem_cons_of_mem _ h))

set_option maxRecDepth 10000 in
/-- The 184 two-letter codes of the static table are pairwise distinct. -/
theorem language_codes_keys_nodup : (_language_codes.map Prod.fst).Nodup := by
  decide

/-! ## Claim theorems -/

/-- Claim C1: with `enforce_length=False`, `human_language` never raises: any
repair failure or unexpected detector failure yields `'unknown'`; a
`pycld2.error` from the first attempt triggers exactly one retry on the
printable-ASCII-stripped text, whose successful answer is returned and whose
own failure (of either kind) collapses to `'unknown'`. -/
theorem human_language_no_raise_fallback (env : DetectorEnv) (text : TextInput) :
    human_language env text false ≠ LangResult.raised ∧
    (text.truthy = true → ¬ text.joined.length < _min_text_length →
      ((∀ er, env.fixText text.joined = Except.error er →
          human_language env text false = .lang "unknown") ∧
       (∀ t', env.fixText text.joined = Except.ok t' →
         (guessed_language env t' = .otherError →
            human_language env text false = .lang "unknown") ∧
         (guessed_language env t' = .cld2Error →
           (∀ lg, guessed_language env (stripUnprintable t') = .ok lg →
              human_language env text false = .lang (langToResult lg)) ∧
           ((guessed_language env (stripUnprintable t') = .cld2Error ∨
             guessed_language env (stripUnprintable t') = .otherError) →
              human_language env text false = .lang "unknown"))))) := by
  refine ⟨human_language_false_ne_raised env text, ?_⟩
  intro h1 h2
  have hbody : human_language env text false =
      (match env.fixText text.joined with
       | .error _ => .lang "unknown"
       | .ok t' =>
         match guessed_language env t' with
         | .ok lang => .lang (langToResult lang)
         | .cld2Error =>
           match guessed_language env (stripUnprintable t') with
           | .ok lang => .lang (langToResult lang)
           | .cld2Error => .lang "unknown"
           | .otherError => .lang "unknown"
         | .otherError => .lang "unknown") := by
    unfold human_language
    rw [h1]
    simp [h2]
  refine ⟨fun er her => by rw [hbody, her], fun t' ht' => ?_⟩
  have hbody2 : human_language env text false =
      (match guessed_language env t' with
       | .ok lang => LangResult.lang (langToResult lang)
       | .cld2Error =>
         (match guessed_language env (stripUnprintable t') with
          | .ok lang => LangResult.lang (langToResult lang)
          | .cld2Error => LangResult.lang "unknown"
          | .otherError => LangResult.lang "unknown")
       | .otherError => LangResult.lang "unknown") := by
    rw [hbody, ht']
  refine ⟨fun hoth => by rw [hbody2, hoth], fun hcld =>
    ⟨fun lg hlg => by rw [hbody2, hcld, hlg], fun hfail => ?_⟩⟩
  rcases hfail with h | h <;> rw [hbody2, hcld, h]

/-- Witness for C1: under `envRetry` the first detection attempt on `cexText`
raises the detector-internal error and the retry on the stripped text
answers English, which `human_language` returns without raising. -/
theorem human_language_no_raise_fallback_witness :
    human_language envRetry (.str cexText) false ≠ LangResult.raised ∧
    human_language envRetry (.str cexText) false = .lang "en" := by
  obtain ⟨hnr, hrest⟩ := human_language_no_raise_fallback envRetry (.str cexText)
  refine ⟨hnr, ?_⟩
  exact (((hrest (by decide) (by decide)).2 cexText rfl).2 (by decide)).1
    (some "en") (by decide)

/-- Claim C2, counterexample: `majority_language("")` returns Python `None`,
not `"unknown"`: the lone per-element result `None` survives the
`['un', 'unknown']` filter and wins the vote. -/
theorem majority_language_empty_string_cex :
    majority_language envTrivial dedupOrder (.str "") false ≠ .lang "unknown" := by
  decide

/-- Claim C2 as amended: `majority_language([])` returns `"unknown"`, but
`majority_language("")` returns `None`, for every detector environment and
every valid set order. -/
theorem majority_language_empty_inputs (env : DetectorEnv)
    (f : List (Option String) → List (Option String)) (hf : IsSetOrder f) :
    majority_language env f (.list []) false = .lang "unknown" ∧
    majority_language env f (.str "") false = LangResult.none := by
  constructor
  · unfold majority_language
    have hres : classifyAll env (.list []) false = [] := rfl
    rw [hres]
    simp [discardUnknown]
  · unfold majority_language
    have hres : classifyAll env (.str "") false = [LangResult.none] := rfl
    rw [hres]
    have hdisc : discardUnknown ([LangResult.none].map asValue) = [Option.none] := rfl
    rw [if_neg (by simp)]
    rw [hdisc, if_neg (by simp), hf.singleton Option.none]
    rfl

/-- Witness for C2 (amended), instantiated at the trivial environment and the
`dedup` set order. -/
theorem majority_language_empty_inputs_witness :
    majority_language envTrivial dedupOrder (.list []) false = .lang "unknown" ∧
    majority_language envTrivial dedupOrder (.str "") false = LangResult.none :=
  majority_language_empty_inputs envTrivial dedupOrder isSetOrder_dedup

/-- Claim C3: any truthy input whose joined text is shorter than 30
characters classifies as `"unknown"` with `enforce_length=False`, for every
detector environment (so the detector is never consulted). -/
theorem human_language_short_unknown (env : DetectorEnv) (text : TextInput)
    (h1 : text.truthy = true) (h2 : text.joined.length < _min_text_length) :
    human_language env text false = .lang "unknown" := by
  unfold human_language
  rw [h1]
  simp [h2]

/-- Witness for C3 at the ten-character string `"short text"`. -/
theorem human_language_short_unknown_witness :
    TextInput.truthy (.str "short text") = true ∧
    (TextInput.joined (.str "short text")).length < _min_text_length ∧
    human_language envTrivial (.str "short text") false = .lang "unknown" :=
  ⟨by decide, by decide,
   human_language_short_unknown envTrivial (.str "short text") (by decide) (by decide)⟩

/-- Claim C4: any truthy input whose joined text is shorter than 30
characters raises with `enforce_length=True`; conversely an escaped exception
can only arise that way, so the length error is the classifier's only
caller-visible exception. -/
theorem human_language_enforce_length (env : DetectorEnv) :
    (∀ text : TextInput, text.truthy = true →
      text.joined.length < _min_text_length →
      human_language env text true = .raised) ∧
    (∀ (text : TextInput) (e : Bool), human_language env text e = .raised →
      e = true ∧ text.truthy = true ∧ text.joined.length < _min_text_length) := by
  constructor
  · intro text h1 h2
    unfold human_language
    rw [h1]
    simp [h2]
  · intro text e h
    unfold human_language at h
    by_cases h1 : text.truthy = true
    · rw [h1] at h
      simp only [Bool.not_true, Bool.false_eq_true, if_false] at h
      by_cases h2 : text.joined.length < _min_text_length
      · rw [if_pos h2] at h
        refine ⟨?_, h1, h2⟩
        by_contra he
        simp only [Bool.not_eq_true] at he
        rw [he] at h
        simp at h
      · rw [if_neg h2] at h
        exfalso
        revert h
        repeat' first | split | simp_all
    · simp only [Bool.not_eq_true] at h1
      rw [h1] at h
      simp at h

/-- Witness for C4 at the nine-character string `"too short"`. -/
theorem human_language_enforce_length_witness :
    TextInput.truthy (.str "too short") = true ∧
    (TextInput.joined (.str "too short")).length < _min_text_length ∧
    human_language envTrivial (.str "too short") true = LangResult.raised :=
  ⟨by decide, by decide,
   (human_language_enforce_length envTrivial).1 (.str "too short")
     (by decide) (by decide)⟩

/-- Claim C5: `majority_language` discards the `"unknown"` votes and the
legacy `"un"` alias before voting, and whenever one surviving vote value is a
code whose occurrence count strictly exceeds every other surviving value's,
that code is returned — for every valid set iteration order. -/
theorem majority_language_strict_max (env : DetectorEnv)
    (f : List (Option String) → List (Option String)) (input : TextInput) (c : String)
    (hf : IsSetOrder f)
    (hc : some c ∈ discardUnknown ((classifyAll env input false).map asValue))
    (hmax : ∀ v ∈ discardUnknown ((classifyAll env input false).map asValue),
      v ≠ some c →
      (discardUnknown ((classifyAll env input false).map asValue)).count v <
        (discardUnknown ((classifyAll env input false).map asValue)).count (some c)) :
    some "unknown" ∉ discardUnknown ((classifyAll env input false).map asValue) ∧
    some "un" ∉ discardUnknown ((classifyAll env input false).map asValue) ∧
    majority_language env f input false = .lang c := by
  refine ⟨?_, ?_, ?_⟩
  · intro hmem
    have h := (List.mem_filter.mp hmem).2
    simp at h
  · intro hmem
    have h := (List.mem_filter.mp hmem).2
    simp at h
  · unfold majority_language
    rw [if_neg ?hraise]
    case hraise =>
      intro hmem
      obtain ⟨t, _, ht⟩ := List.mem_map.mp hmem
      exact human_language_false_ne_raised env t ht
    rw [if_neg (List.ne_nil_of_mem hc)]
    have hmem' : some c ∈ f (discardUnknown ((classifyAll env input false).map asValue)) :=
      ((hf _).2 _).mpr hc
    rw [pyMax_eq_of_strict _ _ (some c) hmem' ?hstrict]
    case hstrict =>
      intro y hy hne
      exact hmax y (((hf _).2 y).mp hy) hne
    rfl

/-- Witness for C5: under `envVote` the three inputs classify as
`["en", "en", "fr"]` and the strict majority `"en"` is returned. -/
theorem majority_language_strict_max_witness :
    majority_language envVote dedupOrder (.list [tEn1, tEn2, tFr]) false = .lang "en" :=
  (majority_language_strict_max envVote dedupOrder (.list [tEn1, tEn2, tFr]) "en"
    isSetOrder_dedup (by decide) (by decide)).2.2

/-- Claim C6: classifying a non-empty list whose space-joined text has length
at least 30 equals classifying the joined string, for either value of
`enforce_length`. -/
theorem human_language_join_equiv (env : DetectorEnv) (l : List String) (e : Bool)
    (h1 : l ≠ []) (h2 : _min_text_length ≤ (spaceJoin l).length) :
    human_language env (.list l) e = human_language env (.str (spaceJoin l)) e := by
  have hne : spaceJoin l ≠ "" := by
    intro hcon
    rw [hcon] at h2
    simp [_min_text_length] at h2
  have ht1 : TextInput.truthy (.list l) = true := by
    simp [TextInput.truthy, h1]
  have ht2 : TextInput.truthy (.str (spaceJoin l)) = true := by
    simp [TextInput.truthy, hne]
  simp only [human_language, ht1, ht2, TextInput.joined]

/-- Witness for C6 on a concrete two-element list whose join is 48 characters
long. -/
theorem human_language_join_equiv_witness :
    (["hello there my friend", "this is a long enough text"] : List String) ≠ [] ∧
    _min_text_length ≤
      (spaceJoin ["hello there my friend", "this is a long enough text"]).length ∧
    human_language envTop (.list ["hello there my friend", "this is a long enough text"])
        false
      = human_language envTop
          (.str (spaceJoin ["hello there my friend", "this is a long enough text"])) false :=
  ⟨by decide, by decide,
   human_language_join_equiv envTop ["hello there my friend", "this is a long enough text"]
     false (by decide) (by decide)⟩

/-- Claim C7: `human_language` maps `None` and the empty string to Python
`None` (distinct from `"unknown"`), for every environment and either value of
`enforce_length`. -/
theorem human_language_empty_none (env : DetectorEnv) (e : Bool) :
    human_language env TextInput.none e = LangResult.none ∧
    human_language env (.str "") e = LangResult.none ∧
    LangResult.none ≠ .lang "unknown" :=
  ⟨rfl, rfl, by decide⟩

/-- Claim C8: `iso639_to_name` is an exact-key lookup in the static table: it
returns the stored English name for every key, `"English"` for `"en"`, and
raises for every non-key, in particular `"zz"` and the differently-cased
`"EN"`. -/
theorem iso639_to_name_exact_lookup :
    (∀ c n, (c, n) ∈ _language_codes → iso639_to_name c = .name n) ∧
    iso639_to_name "en" = .name "English" ∧
    (∀ c, c ∉ _language_codes.map Prod.fst → iso639_to_name c = .unknownCodeError) ∧
    iso639_to_name "zz" = .unknownCodeError ∧
    iso639_to_name "EN" = .unknownCodeError := by
  refine ⟨?_, by decide, ?_, by decide, by decide⟩
  · intro c n hmem
    unfold iso639_to_name
    rw [lookup_eq_some_of_mem _ c n language_codes_keys_nodup hmem]
  · intro c hc
    unfold iso639_to_name
    rw [lookup_eq_none_of_not_mem _ c hc]

/-- Witness for C8 at the table entry for French and the absent key `"qq"`. -/
theorem iso639_to_name_exact_lookup_witness :
    iso639_to_name "fr" = .name "French" ∧ iso639_to_name "qq" = .unknownCodeError :=
  ⟨iso639_to_name_exact_lookup.1 "fr" "French" (by decide),
   iso639_to_name_exact_lookup.2.2.1 "qq" (by decide)⟩

/-- Claim C9: `human_language` is deterministic: two runs against detector
environments with identical (deterministic) behaviour give identical
results on every input and flag. -/
theorem human_language_deterministic (env1 env2 : DetectorEnv) (text : TextInput)
    (e : Bool) (hfix : ∀ s, env1.fixText s = env2.fixText s)
    (hdet : ∀ s, env1.detect s = env2.detect s) :
    human_language env1 text e = human_language env2 text e := by
  have : env1 = env2 := by
    cases env1
    cases env2
    congr 1
    · funext s
      exact hfix s
    · funext s
      exact hdet s
  rw [this]

/-- Witness for C9: two runs under `envTop` on a concrete pangram agree. -/
theorem human_language_deterministic_witness :
    human_language envTop (.str "The quick brown fox jumps over the lazy dog.") false
      = human_language envTop (.str "The quick brown fox jumps over the lazy dog.") false :=
  human_language_deterministic envTop envTop
    (.str "The quick brown fox jumps over the lazy dog.") false
    (fun _ => rfl) (fun _ => rfl)

/-- Claim C10, counterexample: 31 empty strings join to 30 spaces, which
passes the length gate, so the result is whatever the detector answers
(here `"en"`), not necessarily `"unknown"`. -/
theorem human_language_many_empty_cex :
    (List.replicate 31 "" : List String) ≠ [] ∧
    (∀ s ∈ (List.replicate 31 "" : List String), s = "") ∧
    human_language envTop (.list (List.replicate 31 "")) false ≠ .lang "unknown" := by
  refine ⟨by decide, by decide, ?_⟩
  decide

/-- Claim C10 as amended: a non-empty list of at most 30 empty strings joins
to fewer than 30 characters, so `human_language` with `enforce_length=False`
returns `"unknown"` (and in particular not `None`): the emptiness check tests
the list itself, not the joined content. -/
theorem human_language_all_empty_list_unknown (env : DetectorEnv) (l : List String)
    (h1 : l ≠ []) (h2 : ∀ s ∈ l, s = "") (h3 : l.length ≤ _min_text_length) :
    human_language env (.list l) false = .lang "unknown" ∧
    human_language env (.list l) false ≠ LangResult.none := by
  have hlen : (TextInput.joined (.list l)).length < _min_text_length := by
    show (spaceJoin l).length < _min_text_length
    rw [spaceJoin_all_empty_length l h2]
    have : 1 ≤ l.length := List.length_pos.mpr h1
    omega
  have ht : TextInput.truthy (.list l) = true := by
    simp [TextInput.truthy, h1]
  constructor
  · unfold human_language
    rw [ht]
    simp [hlen]
  · unfold human_language
    rw [ht]
    simp [hlen]

/-- Witness for C10 (amended) at the one-element list `[""]`. -/
theorem human_language_all_empty_list_unknown_witness :
    ([""] : List String) ≠ [] ∧ (∀ s ∈ ([""] : List String), s = "") ∧
    ([""] : List String).length ≤ _min_text_length ∧
    human_language envTop (.list [""]) false = .lang "unknown" ∧
    human_language envTop (.list [""]) false ≠ LangResult.none := by
  refine ⟨by decide, by decide, by decide, ?_, ?_⟩
  · exact (human_language_all_empty_list_unknown envTop [""]
      (by decide) (by decide) (by decide)).1
  · exact (human_language_all_empty_list_unknown envTop [""]
      (by decide) (by decide) (by decide)).2

end CodeOrNot
